import Mathlib

/-
Verification of the invoice computation engine of the billing back end.

The embedding models the monetary computations of the source over exact
rationals (JavaScript numbers carry no NaN or infinity in this model; the
NaN guards of the source are unreachable here and are noted where they
occur). The modelled code:
  - the invoice schema pre-save hook (models file, invoiceSchema.pre of save);
  - the POST /invoices create handler: safeNumber coercion, line-item
    processing, totals, tax breakdown, invoice-number generation loop;
  - the PUT /invoices/:id update handler and its recomputation branch;
  - the PUT /invoices/:id/status endpoint.
-/

namespace Billing

/-- Floor of a rational, written computably so that closed instances reduce
inside the kernel; `jfloor_eq` identifies it with `Int.floor`. -/
def jfloor (q : ℚ) : ℤ := q.num / q.den

theorem jfloor_eq (q : ℚ) : jfloor q = Int.floor q := by
  rw [Rat.floor_def]
  rfl

/-- Rounding to two decimals exactly as the source writes it:
`Math.round(x * 100) / 100`. JavaScript `Math.round t` is `⌊t + 1/2⌋`
(halves round toward positive infinity), so over exact rationals
`jround2 x = ⌊100 x + 1/2⌋ / 100`. -/
def jround2 (x : ℚ) : ℚ := ((jfloor (x * 100 + 1/2) : ℤ) : ℚ) / 100

theorem jround2_def (x : ℚ) : jround2 x = ((Int.floor (x * 100 + 1/2) : ℤ) : ℚ) / 100 := by
  rw [jround2, jfloor_eq]

/-- A JavaScript value sitting in an optional numeric slot of a request body,
distinguished exactly as far as the numeric coercions of the source
distinguish them: `undefined`, `null`, the empty string, a string that parses
to a number, a non-numeric non-empty string, a plain (finite) number, and the
number `NaN`. The exact-arithmetic model carries no infinities. -/
inductive JVal where
  | undef
  | nullv
  | emptyStr
  | numStr (x : ℚ)
  | badStr
  | num (x : ℚ)
  | nanv
deriving DecidableEq

/-- The `safeNumber` helper of the create handler: `null`, `undefined` and the
empty string fall back to the default; otherwise `Number(value)` is taken and a
`NaN` result falls back to the default. -/
def safeNumber (v : JVal) (d : ℚ) : ℚ :=
  match v with
  | .undef => d
  | .nullv => d
  | .emptyStr => d
  | .numStr x => x
  | .badStr => d
  | .num x => x
  | .nanv => d

/-- JavaScript truthiness of the modelled values: `undefined`, `null`, the
empty string, `0` and `NaN` are falsy; every non-empty string and every
non-zero number is truthy. -/
def JVal.truthy : JVal → Bool
  | .undef => false
  | .nullv => false
  | .emptyStr => false
  | .numStr _ => true
  | .badStr => true
  | .num x => decide (x ≠ 0)
  | .nanv => false

/-- JavaScript `a || b` on request-body values. -/
def jsOr (a b : JVal) : JVal := if a.truthy then a else b

/-- JavaScript `Number(v)`; the result `none` stands for `NaN`. -/
def jsNumber : JVal → Option ℚ
  | .undef => none
  | .nullv => some 0
  | .emptyStr => some 0
  | .numStr x => some x
  | .badStr => none
  | .num x => some x
  | .nanv => none

/-- JavaScript `n || d` on an already coerced number: the default is taken
when the number is `NaN` or `0`. -/
def numOr (v : Option ℚ) (d : ℚ) : ℚ :=
  match v with
  | none => d
  | some x => if x = 0 then d else x

/-- The two tax regimes of the schema enum. -/
inductive TaxType where
  | IGST
  | CGST_SGST
deriving DecidableEq

/-- The invoice `status` enum of the schema. -/
inductive InvStatus where
  | pending
  | paid
  | cancelled
  | draft
  | completed
deriving DecidableEq

/-- The derived `paymentStatus` values. The source writes the string
`'partial'` for the constructor here named `partiallyPaid`. -/
inductive PayStatus where
  | pending
  | partiallyPaid
  | paid
  | overdue
  | cancelled
deriving DecidableEq

/-- A stored line item: the numeric fields of `lineItemSchema`. Name,
description, unit and hsnCode are strings that play no part in any monetary
claim and are omitted from the model. -/
structure LineItem where
  quantity : ℚ
  unitPrice : ℚ
  taxRate : ℚ
  lineTotal : ℚ
  taxAmount : ℚ
  totalAmount : ℚ
deriving DecidableEq

/-- A raw line item of a request body: each numeric slot may hold any
JavaScript value. `gstRate` is the legacy alias consulted by the source
expression `item.taxRate || item.gstRate`. -/
structure RawLineItem where
  quantity : JVal := .undef
  unitPrice : JVal := .undef
  taxRate : JVal := .undef
  gstRate : JVal := .undef
deriving DecidableEq

/-- The persisted invoice document: the monetary, tax and status fields of
`invoiceSchema`. Snapshot strings (customer, addresses, bank, footer, tags)
play no part in any monetary claim and are omitted. -/
structure Invoice where
  lineItems : List LineItem := []
  subtotal : ℚ := 0
  totalTaxAmount : ℚ := 0
  discountAmount : ℚ := 0
  transportCharges : ℚ := 0
  otherCharges : ℚ := 0
  roundingAdjustment : ℚ := 0
  finalAmount : ℚ := 0
  paidAmount : ℚ := 0
  balanceAmount : ℚ := 0
  igst : ℚ := 0
  cgst : ℚ := 0
  sgst : ℚ := 0
  taxRate : ℚ := 18
  taxType : TaxType := .IGST
  status : InvStatus := .pending
  paymentStatus : PayStatus := .pending
deriving DecidableEq

/-- The `invoiceSchema.pre` save hook, which runs on every `save()` call
(creation, any save-based mutation, the status endpoint). It recomputes
`subtotal` and `totalTaxAmount` as plain sums, `finalAmount` as the charge
formula with no rounding applied, `balanceAmount` as `finalAmount` minus
`paidAmount`, recomputes the tax breakdown only when the stored breakdown is
entirely zero and there is tax, and derives `paymentStatus` (and, for a paid
balance, `status`) from the recomputed amounts. The `|| 0` guards of the
source are identities over exact rationals. The customerInfo mirror sync at
the top of the hook touches no monetary field and is omitted. -/
def preSave (inv : Invoice) : Invoice :=
  let subtotal := (inv.lineItems.map (·.lineTotal)).sum
  let totalTax := (inv.lineItems.map (·.taxAmount)).sum
  let finalAmount := subtotal + totalTax - inv.discountAmount +
    inv.transportCharges + inv.otherCharges + inv.roundingAdjustment
  let balance := finalAmount - inv.paidAmount
  let recompute : Prop := 0 < totalTax ∧ inv.igst = 0 ∧ inv.cgst = 0 ∧ inv.sgst = 0
  { inv with
    subtotal := subtotal
    totalTaxAmount := totalTax
    finalAmount := finalAmount
    balanceAmount := balance
    igst := if recompute then
        (if inv.taxType = .CGST_SGST then 0 else jround2 totalTax)
      else inv.igst
    cgst := if recompute then
        (if inv.taxType = .CGST_SGST then jround2 (totalTax / 2) else 0)
      else inv.cgst
    sgst := if recompute then
        (if inv.taxType = .CGST_SGST then jround2 (totalTax / 2) else 0)
      else inv.sgst
    paymentStatus := if balance ≤ 0 then .paid
      else if 0 < inv.paidAmount then .partiallyPaid
      else .pending
    status := if balance ≤ 0 then .paid else inv.status }

/-- Processing of one line item by the create handler. `invTaxRate` is the
request-level `taxRate` after its destructuring default of 18. The `isNaN`
fallbacks of the source are unreachable over exact rationals. -/
def processLineItem (invTaxRate : JVal) (item : RawLineItem) : LineItem :=
  let quantity := safeNumber item.quantity 1
  let unitPrice := safeNumber item.unitPrice 0
  let itemTaxRate := safeNumber (jsOr item.taxRate (jsOr item.gstRate invTaxRate)) 18
  let lineTotal := quantity * unitPrice
  let taxAmount := lineTotal * itemTaxRate / 100
  let totalAmount := lineTotal + taxAmount
  { quantity := quantity
    unitPrice := unitPrice
    taxRate := itemTaxRate
    lineTotal := jround2 lineTotal
    taxAmount := jround2 taxAmount
    totalAmount := jround2 totalAmount }

/-- The create-invoice request body fields that feed the computation. The
body-level charge and taxRate slots may hold any JavaScript value; the
destructuring defaults of the handler (charges to 0, taxRate to 18, taxType
to IGST) apply only to a missing field and are modelled by `dflt` below and
by the `taxType` default. -/
structure CreateReq where
  lineItems : List RawLineItem := []
  discountAmount : JVal := .undef
  transportCharges : JVal := .undef
  otherCharges : JVal := .undef
  roundingAdjustment : JVal := .undef
  taxRate : JVal := .undef
  taxType : TaxType := .IGST
deriving DecidableEq

/-- A destructuring default: a missing (`undefined`) field becomes the default
number; any other value, `null` included, stays as it is. -/
def dflt (v : JVal) (d : ℚ) : JVal :=
  match v with
  | .undef => .num d
  | w => w

/-- The body of the POST /invoices handler after validation and number
generation: process the line items, sum the totals, coerce the charges
through `safeNumber`, round, derive the tax breakdown, and assemble the
document handed to `save()` with `paidAmount = 0`. The `isNaN` guards on
`finalAmount` and `balanceAmount`, and the pre-save NaN validation loop,
are unreachable over exact rationals. -/
def buildInvoice (req : CreateReq) : Invoice :=
  let bodyTaxRate := dflt req.taxRate 18
  let items := req.lineItems.map (processLineItem bodyTaxRate)
  let subtotal0 := (items.map (fun it => safeNumber (.num it.lineTotal) 0)).sum
  let totalTax0 := (items.map (fun it => safeNumber (.num it.taxAmount) 0)).sum
  let safeDiscountAmount := safeNumber (dflt req.discountAmount 0) 0
  let safeTransportCharges := safeNumber (dflt req.transportCharges 0) 0
  let safeOtherCharges := safeNumber (dflt req.otherCharges 0) 0
  let safeRoundingAdjustment := safeNumber (dflt req.roundingAdjustment 0) 0
  let finalAmount0 := subtotal0 + totalTax0 - safeDiscountAmount +
    safeTransportCharges + safeOtherCharges + safeRoundingAdjustment
  let balanceAmount0 := finalAmount0 - 0
  let totalTax := jround2 totalTax0
  { lineItems := items
    subtotal := jround2 subtotal0
    totalTaxAmount := totalTax
    discountAmount := safeDiscountAmount
    transportCharges := safeTransportCharges
    otherCharges := safeOtherCharges
    roundingAdjustment := safeRoundingAdjustment
    finalAmount := jround2 finalAmount0
    paidAmount := 0
    balanceAmount := jround2 balanceAmount0
    igst := if req.taxType = .CGST_SGST then 0 else jround2 totalTax
    cgst := if req.taxType = .CGST_SGST then jround2 (totalTax / 2) else 0
    sgst := if req.taxType = .CGST_SGST then jround2 (totalTax / 2) else 0
    taxRate := safeNumber bodyTaxRate 18
    taxType := req.taxType
    status := .pending
    paymentStatus := .pending }

/-- The create endpoint after customer lookup, with number generation factored
out (see `createWithStore`): reject a missing or empty line-item list, then
compute the invoice and persist it through `save()`, which runs the pre-save
hook last. -/
def createInvoiceReq (req : CreateReq) : Except String Invoice :=
  if req.lineItems.isEmpty then
    .error "Line items are required"
  else
    .ok (preSave (buildInvoice req))

/-- Number of generation attempts before the create endpoint gives up. -/
def maxAttempts : Nat := 100

/-- Last `n` characters of a string, JavaScript `s.slice(-n)` for positive `n`
no larger than the length (shorter strings are returned whole). -/
def lastChars (n : Nat) (s : String) : String :=
  ⟨s.toList.drop (s.toList.length - n)⟩

/-- JavaScript `s.padStart(3, c)` with the zero character. -/
def padLeft3 (s : String) : String :=
  ⟨List.replicate (3 - s.toList.length) '0' ++ s.toList⟩

/-- The sequence suffix of one generation attempt: the last six digits of the
timestamp followed by the zero-padded three-digit random component. -/
def mkSequence (timestamp random : Nat) : String :=
  lastChars 6 (Nat.repr timestamp) ++ padLeft3 (Nat.repr random)

/-- The candidate number of one attempt: the type-specific prefix, a hyphen,
and the sequence suffix. -/
def mkCandidate (pfx : String) (timestamp random : Nat) : String :=
  pfx ++ "-" ++ mkSequence timestamp random

/-- The candidates examined by the generation loop: one per attempt, drawn in
order from the stream of (timestamp, random) pairs, `maxAttempts` of them. -/
def attemptCands (pfx : String) (draws : Nat → Nat × Nat) : List String :=
  (List.range maxAttempts).map (fun i => mkCandidate pfx (draws i).1 (draws i).2)

/-- The generation loop: take the first candidate not already present in the
invoice store (the uniqueness check `Invoice.findOne` carries no owner filter,
so the store is global); if every attempt collides, fail with the handler's
error message. -/
def genInvoiceNumber (store : List String) : List String → Except String String
  | [] => .error "Could not generate unique invoice number"
  | c :: rest => if c ∈ store then genInvoiceNumber store rest else .ok c

/-- The create endpoint with the invoice-number store visible: validation,
number generation, then computation and save. On any error the handler
returns before `save()`, so no invoice is persisted. -/
def createWithStore (store : List String) (pfx : String) (draws : Nat → Nat × Nat)
    (req : CreateReq) : Except String (String × Invoice) :=
  if req.lineItems.isEmpty then
    .error "Line items are required"
  else
    match genInvoiceNumber store (attemptCands pfx draws) with
    | .error e => .error e
    | .ok n => .ok (n, preSave (buildInvoice req))

/-- Processing of one line item by the update handler, which uses
`Number(x) || default` rather than `safeNumber`; in particular the
line-level rate chain is `Number(item.taxRate || item.gstRate) ||
Number(updateData.taxRate) || 18`. -/
def updLineItem (bodyTaxRate : JVal) (item : RawLineItem) : LineItem :=
  let quantity := numOr (jsNumber item.quantity) 1
  let unitPrice := numOr (jsNumber item.unitPrice) 0
  let taxRate := numOr (jsNumber (jsOr item.taxRate item.gstRate))
    (numOr (jsNumber bodyTaxRate) 18)
  let lineTotal := quantity * unitPrice
  let taxAmount := lineTotal * taxRate / 100
  let totalAmount := lineTotal + taxAmount
  { quantity := quantity
    unitPrice := unitPrice
    taxRate := taxRate
    lineTotal := jround2 lineTotal
    taxAmount := jround2 taxAmount
    totalAmount := jround2 totalAmount }

/-- The update request body fields that feed the PUT /invoices/:id handler.
Charge fields are modelled as absent or a number (`none` is `undefined`; the
handler tests them with a strict `!== undefined`). A body-supplied tax
breakdown matters only on the non-recompute path, because the recompute
branch overwrites it. -/
structure UpdateBody where
  lineItems : Option (List RawLineItem) := none
  discountAmount : Option ℚ := none
  transportCharges : Option ℚ := none
  otherCharges : Option ℚ := none
  roundingAdjustment : Option ℚ := none
  taxRate : JVal := .undef
  taxType : Option TaxType := none
  paidAmount : Option ℚ := none
  igst : Option ℚ := none
  cgst : Option ℚ := none
  sgst : Option ℚ := none
deriving DecidableEq

/-- The recomputation branch of the update handler: reprocess the line items,
recompute subtotal, totalTaxAmount and finalAmount — the finalAmount formula
omits `roundingAdjustment` — set `balanceAmount` to the rounded finalAmount
with `paidAmount` ignored, and overwrite the tax breakdown unconditionally
from the recomputed (unrounded) tax sum. `findOneAndUpdate` then merges these
computed fields together with the remaining body fields into the stored
document without running the pre-save hook. -/
def recomputeUpdate (stored : Invoice) (b : UpdateBody) (raw : List RawLineItem) : Invoice :=
  let items := raw.map (updLineItem b.taxRate)
  let subtotal0 := (items.map (·.lineTotal)).sum
  let totalTax0 := (items.map (·.taxAmount)).sum
  let finalAmount0 := subtotal0 + totalTax0 - (b.discountAmount.getD 0) +
    (b.transportCharges.getD 0) + (b.otherCharges.getD 0)
  let tt := b.taxType.getD .IGST
  { stored with
    lineItems := items
    subtotal := jround2 subtotal0
    totalTaxAmount := jround2 totalTax0
    finalAmount := jround2 finalAmount0
    balanceAmount := jround2 finalAmount0
    discountAmount := b.discountAmount.getD stored.discountAmount
    transportCharges := b.transportCharges.getD stored.transportCharges
    otherCharges := b.otherCharges.getD stored.otherCharges
    roundingAdjustment := b.roundingAdjustment.getD stored.roundingAdjustment
    paidAmount := b.paidAmount.getD stored.paidAmount
    igst := if tt = .CGST_SGST then 0 else jround2 totalTax0
    cgst := if tt = .CGST_SGST then jround2 (totalTax0 / 2) else 0
    sgst := if tt = .CGST_SGST then jround2 (totalTax0 / 2) else 0
    taxType := tt
    taxRate := match items.head? with
      | some it => it.taxRate
      | none => numOr (jsNumber b.taxRate) 18 }

/-- The merge performed by `findOneAndUpdate` when the recomputation branch is
not entered: body fields replace stored fields, nothing is recomputed and the
pre-save hook does not run. A non-numeric body taxRate would be rejected by
the schema cast and is outside this model. -/
def mergeUpdate (stored : Invoice) (b : UpdateBody) : Invoice :=
  { stored with
    discountAmount := b.discountAmount.getD stored.discountAmount
    roundingAdjustment := b.roundingAdjustment.getD stored.roundingAdjustment
    paidAmount := b.paidAmount.getD stored.paidAmount
    igst := b.igst.getD stored.igst
    cgst := b.cgst.getD stored.cgst
    sgst := b.sgst.getD stored.sgst
    taxType := b.taxType.getD stored.taxType
    taxRate := (jsNumber b.taxRate).getD stored.taxRate }

/-- The PUT /invoices/:id handler. When the body has line items or a defined
transport or other charge, the recomputation branch runs; entering it without
a `lineItems` array makes the handler map over `undefined`, which throws, is
caught, and is answered with a 500 error — `findOneAndUpdate` is never
reached, so the stored invoice is unchanged. -/
def updateInvoice (stored : Invoice) (b : UpdateBody) : Except String Invoice :=
  if b.lineItems.isSome ∨ b.transportCharges.isSome ∨ b.otherCharges.isSome then
    match b.lineItems with
    | none => .error "Failed to update invoice: Cannot read properties of undefined"
    | some raw => .ok (recomputeUpdate stored b raw)
  else
    .ok (mergeUpdate stored b)

/-- The status carried by a PUT /invoices/:id/status request; any other
string is rejected with a 400 before the invoice is touched. -/
inductive StatusReq where
  | pending
  | paid
  | cancelled
deriving DecidableEq

/-- The PUT /invoices/:id/status endpoint: set `status` and `paymentStatus`
to the requested value, adjust `paidAmount` and `balanceAmount` for `paid`
and `pending`, then `save()` — so the pre-save hook runs last and rederives
`paymentStatus` from the amounts. The `paidDate` bookkeeping is omitted. -/
def updateStatusEndpoint (inv : Invoice) (s : StatusReq) : Invoice :=
  let inv1 :=
    match s with
    | .pending =>
      { inv with
        status := .pending
        paymentStatus := .pending
        paidAmount := 0
        balanceAmount := inv.finalAmount }
    | .paid =>
      { inv with
        status := .paid
        paymentStatus := .paid
        paidAmount := inv.finalAmount
        balanceAmount := 0 }
    | .cancelled =>
      { inv with
        status := .cancelled
        paymentStatus := .cancelled }
  preSave inv1

/-- Projection of a handler result for writing closed counterexamples; the
error case yields the all-default document. -/
def getOk (e : Except String Invoice) : Invoice :=
  match e with
  | .ok v => v
  | .error _ => {}

/-- An exact multiple of one hundredth — the form every `jround2` result, and
hence every rounded amount, takes. -/
def Cents (x : ℚ) : Prop := ∃ n : ℤ, x = (n : ℚ) / 100

theorem cents_jround2 (x : ℚ) : Cents (jround2 x) :=
  ⟨jfloor (x * 100 + 1/2), rfl⟩

theorem Cents.add {x y : ℚ} (hx : Cents x) (hy : Cents y) : Cents (x + y) := by
  obtain ⟨m, rfl⟩ := hx
  obtain ⟨n, rfl⟩ := hy
  exact ⟨m + n, by push_cast; ring⟩

theorem Cents.neg {x : ℚ} (hx : Cents x) : Cents (-x) := by
  obtain ⟨m, rfl⟩ := hx
  exact ⟨-m, by push_cast; ring⟩

theorem Cents.sub {x y : ℚ} (hx : Cents x) (hy : Cents y) : Cents (x - y) := by
  have := hx.add hy.neg
  simpa [sub_eq_add_neg] using this

theorem cents_zero : Cents 0 := ⟨0, by norm_num⟩

theorem cents_sum (l : List ℚ) (h : ∀ x ∈ l, Cents x) : Cents l.sum := by
  induction l with
  | nil => simpa using cents_zero
  | cons a t ih =>
    simp only [List.sum_cons]
    exact (h a (by simp)).add (ih fun x hx => h x (by simp [hx]))

theorem jround2_eq_self {x : ℚ} (h : Cents x) : jround2 x = x := by
  obtain ⟨n, rfl⟩ := h
  rw [jround2_def]
  have h1 : (n : ℚ) / 100 * 100 + 1/2 = (n : ℚ) + 1/2 := by
    rw [div_mul_cancel₀ _ (by norm_num : (100 : ℚ) ≠ 0)]
  have h2 : Int.floor ((n : ℚ) + 1/2) = n := by
    rw [Int.floor_eq_iff]
    constructor
    · linarith
    · linarith
  rw [h1, h2]

theorem jround2_eval {x : ℚ} {n : ℤ} (h1 : (n : ℚ) ≤ x * 100 + 1/2)
    (h2 : x * 100 + 1/2 < n + 1) : jround2 x = (n : ℚ) / 100 := by
  have hf : Int.floor (x * 100 + 1/2) = n := by
    rw [Int.floor_eq_iff]
    exact ⟨h1, h2⟩
  rw [jround2_def, hf]

theorem createInvoiceReq_ok {req : CreateReq} {inv : Invoice}
    (h : createInvoiceReq req = .ok inv) : inv = preSave (buildInvoice req) := by
  unfold createInvoiceReq at h
  split at h
  · cases h
  · cases h
    rfl

theorem updateInvoice_ok_recompute {stored : Invoice} {b : UpdateBody}
    {raw : List RawLineItem} {inv' : Invoice}
    (hb : b.lineItems = some raw) (hu : updateInvoice stored b = .ok inv') :
    inv' = recomputeUpdate stored b raw := by
  unfold updateInvoice at hu
  rw [hb] at hu
  simp only [Option.isSome_some, true_or, if_true] at hu
  cases hu
  rfl

theorem cents_sum_map {α : Type} (f : α → ℚ) (l : List α)
    (h : ∀ it ∈ l, Cents (f it)) : Cents ((l.map f).sum) := by
  apply cents_sum
  intro x hx
  rw [List.mem_map] at hx
  obtain ⟨it, hit, rfl⟩ := hx
  exact h it hit

theorem cents_buildInvoice_lineTotal (req : CreateReq) :
    ∀ it ∈ (buildInvoice req).lineItems, Cents it.lineTotal := by
  intro it hit
  simp only [buildInvoice, List.mem_map] at hit
  obtain ⟨raw, _, rfl⟩ := hit
  exact cents_jround2 _

theorem cents_buildInvoice_taxAmount (req : CreateReq) :
    ∀ it ∈ (buildInvoice req).lineItems, Cents it.taxAmount := by
  intro it hit
  simp only [buildInvoice, List.mem_map] at hit
  obtain ⟨raw, _, rfl⟩ := hit
  exact cents_jround2 _

theorem payLaw_preSave (inv : Invoice) :
    ((preSave inv).balanceAmount ≤ 0 → (preSave inv).paymentStatus = .paid) ∧
    (0 < (preSave inv).paidAmount → 0 < (preSave inv).balanceAmount →
      (preSave inv).paymentStatus = .partiallyPaid) ∧
    ((preSave inv).paidAmount = 0 → 0 < (preSave inv).balanceAmount →
      (preSave inv).paymentStatus = .pending) := by
  simp only [preSave]
  refine ⟨fun hb => ?_, fun hp hb => ?_, fun hp hb => ?_⟩
  · rw [if_pos hb]
  · rw [if_neg (not_le.mpr hb), if_pos hp]
  · rw [if_neg (not_le.mpr hb), if_neg (by rw [hp]; exact lt_irrefl 0)]

/-- A concrete create request used to instantiate hypotheses of proved
claims: one line item of quantity 3, unit price 100, tax rate 18. -/
def reqOne : CreateReq :=
  { lineItems := [{ quantity := .num 3, unitPrice := .num 100, taxRate := .num 18 }] }

/-- C1: on every persistence path that runs the pre-save hook — creation, any
save-based update, and the status endpoint — the persisted `paymentStatus` is
the pure function of the persisted `paidAmount` and `balanceAmount` stated by
the spec: `paid` whenever the balance is at most zero, `partial` (here
`partiallyPaid`) whenever something is paid and a positive balance remains,
and `pending` whenever nothing is paid and a positive balance remains. -/
theorem c1_payment_status_pure (inv : Invoice) (s : StatusReq) (req : CreateReq)
    (saved created : Invoice)
    (hs : saved = preSave inv)
    (hc : createInvoiceReq req = .ok created) :
    ((saved.balanceAmount ≤ 0 → saved.paymentStatus = .paid) ∧
      (0 < saved.paidAmount → 0 < saved.balanceAmount →
        saved.paymentStatus = .partiallyPaid) ∧
      (saved.paidAmount = 0 → 0 < saved.balanceAmount →
        saved.paymentStatus = .pending)) ∧
    (((updateStatusEndpoint inv s).balanceAmount ≤ 0 →
        (updateStatusEndpoint inv s).paymentStatus = .paid) ∧
      (0 < (updateStatusEndpoint inv s).paidAmount →
        0 < (updateStatusEndpoint inv s).balanceAmount →
        (updateStatusEndpoint inv s).paymentStatus = .partiallyPaid) ∧
      ((updateStatusEndpoint inv s).paidAmount = 0 →
        0 < (updateStatusEndpoint inv s).balanceAmount →
        (updateStatusEndpoint inv s).paymentStatus = .pending)) ∧
    ((created.balanceAmount ≤ 0 → created.paymentStatus = .paid) ∧
      (0 < created.paidAmount → 0 < created.balanceAmount →
        created.paymentStatus = .partiallyPaid) ∧
      (created.paidAmount = 0 → 0 < created.balanceAmount →
        created.paymentStatus = .pending)) := by
  subst hs
  have hcre := createInvoiceReq_ok hc
  subst hcre
  refine ⟨payLaw_preSave inv, ?_, payLaw_preSave (buildInvoice req)⟩
  cases s
  · exact payLaw_preSave _
  · exact payLaw_preSave _
  · exact payLaw_preSave _

/-- Witness for C1 at concrete inputs: the all-default invoice saves as paid
(zero balance), and a freshly created invoice with a positive total is
pending. -/
theorem c1_payment_status_pure_witness :
    (preSave {}).paymentStatus = PayStatus.paid ∧
    (preSave (buildInvoice reqOne)).paymentStatus = PayStatus.pending := by
  have h := c1_payment_status_pure {} .paid reqOne (preSave {})
    (preSave (buildInvoice reqOne)) rfl rfl
  refine ⟨h.1.1 (by norm_num [preSave]), h.2.2.2.2 rfl ?_⟩
  norm_num [preSave, buildInvoice, reqOne, processLineItem, safeNumber, jsOr,
    JVal.truthy, dflt, jround2_def, Int.floor_eq_iff]

/-- C2 (amended): after creation the persisted `finalAmount` is the exact,
unrounded charge sum over the persisted fields — the pre-save hook recomputes
it without rounding, overwriting the handler's rounded value — and it equals
the rounded sum whenever every charge is an exact two-decimal value; after an
update through the recomputation branch, `finalAmount` is the rounded sum
computed from the request body's charges (an absent charge counts as 0)
with `roundingAdjustment` excluded from the formula. -/
theorem c2_final_amount (req : CreateReq) (stored : Invoice) (b : UpdateBody)
    (inv inv' : Invoice) (raw : List RawLineItem)
    (hc : createInvoiceReq req = .ok inv)
    (hb : b.lineItems = some raw)
    (hu : updateInvoice stored b = .ok inv') :
    inv.finalAmount = inv.subtotal + inv.totalTaxAmount - inv.discountAmount +
      inv.transportCharges + inv.otherCharges + inv.roundingAdjustment ∧
    (Cents inv.discountAmount → Cents inv.transportCharges → Cents inv.otherCharges →
      Cents inv.roundingAdjustment →
      inv.finalAmount = jround2 (inv.subtotal + inv.totalTaxAmount - inv.discountAmount +
        inv.transportCharges + inv.otherCharges + inv.roundingAdjustment)) ∧
    inv'.finalAmount = jround2 (inv'.subtotal + inv'.totalTaxAmount -
      (b.discountAmount.getD 0) + (b.transportCharges.getD 0) + (b.otherCharges.getD 0)) := by
  have hcre := createInvoiceReq_ok hc
  subst hcre
  have hupd := updateInvoice_ok_recompute hb hu
  subst hupd
  refine ⟨rfl, fun hd ht ho hr => ?_, ?_⟩
  · have hsub : Cents (preSave (buildInvoice req)).subtotal :=
      cents_sum_map _ _ (cents_buildInvoice_lineTotal req)
    have htax : Cents (preSave (buildInvoice req)).totalTaxAmount :=
      cents_sum_map _ _ (cents_buildInvoice_taxAmount req)
    have hall : Cents ((preSave (buildInvoice req)).subtotal +
        (preSave (buildInvoice req)).totalTaxAmount -
        (preSave (buildInvoice req)).discountAmount +
        (preSave (buildInvoice req)).transportCharges +
        (preSave (buildInvoice req)).otherCharges +
        (preSave (buildInvoice req)).roundingAdjustment) :=
      ((((hsub.add htax).sub hd).add ht).add ho).add hr
    rw [jround2_eq_self hall]
    rfl
  · have hsub : Cents (((raw.map (updLineItem b.taxRate)).map (·.lineTotal)).sum) := by
      refine cents_sum_map _ _ ?_
      intro it hit
      rw [List.mem_map] at hit
      obtain ⟨x, _, rfl⟩ := hit
      exact cents_jround2 _
    have htax : Cents (((raw.map (updLineItem b.taxRate)).map (·.taxAmount)).sum) := by
      refine cents_sum_map _ _ ?_
      intro it hit
      rw [List.mem_map] at hit
      obtain ⟨x, _, rfl⟩ := hit
      exact cents_jround2 _
    show (recomputeUpdate stored b raw).finalAmount = _
    simp only [recomputeUpdate]
    rw [jround2_eq_self hsub, jround2_eq_self htax]

/-- A stored invoice with final amount 100 and nothing paid, and an update
body that resends the single line item together with a rounding adjustment
of 5. -/
def lineC2 : LineItem :=
  { quantity := 1
    unitPrice := 100
    taxRate := 0
    lineTotal := 100
    taxAmount := 0
    totalAmount := 100 }

def invC2 : Invoice :=
  { lineItems := [lineC2]
    subtotal := 100
    finalAmount := 100
    balanceAmount := 100 }

def bodyC2 : UpdateBody :=
  { lineItems := some [{ quantity := .num 1, unitPrice := .num 100, taxRate := .num 18 }]
    roundingAdjustment := some 5 }

def invC2res : Invoice := getOk (updateInvoice invC2 bodyC2)

/-- C2 counterexample: updating with a rounding adjustment of 5 persists
`roundingAdjustment = 5` but `finalAmount = 118`, while the claimed formula
over the persisted charge fields gives 123 — the update handler's
`finalAmount` omits `roundingAdjustment`. -/
theorem c2_counterexample :
    updateInvoice invC2 bodyC2 = .ok invC2res ∧
    invC2res.roundingAdjustment = 5 ∧
    invC2res.finalAmount = 118 ∧
    jround2 (invC2res.subtotal + invC2res.totalTaxAmount - invC2res.discountAmount +
      invC2res.transportCharges + invC2res.otherCharges + invC2res.roundingAdjustment) = 123 ∧
    invC2res.finalAmount ≠ jround2 (invC2res.subtotal + invC2res.totalTaxAmount -
      invC2res.discountAmount + invC2res.transportCharges + invC2res.otherCharges +
      invC2res.roundingAdjustment) := by
  have h1 : invC2res.roundingAdjustment = 5 := by
    norm_num [invC2res, getOk, updateInvoice, recomputeUpdate, invC2, bodyC2]
  have h2 : invC2res.finalAmount = 118 := by
    norm_num [invC2res, getOk, updateInvoice, recomputeUpdate, invC2, bodyC2,
      updLineItem, numOr, jsNumber, jsOr, JVal.truthy, jround2_def, Int.floor_eq_iff]
  have h3 : jround2 (invC2res.subtotal + invC2res.totalTaxAmount - invC2res.discountAmount +
      invC2res.transportCharges + invC2res.otherCharges + invC2res.roundingAdjustment) = 123 := by
    norm_num [invC2res, getOk, updateInvoice, recomputeUpdate, invC2, bodyC2,
      updLineItem, numOr, jsNumber, jsOr, JVal.truthy, jround2_def, Int.floor_eq_iff]
  exact ⟨rfl, h1, h2, h3, by rw [h2, h3]; norm_num⟩

/-- Witness for C2 at concrete inputs: the create of one 3 × 100 line at 18
percent persists `finalAmount = 354`, the exact charge sum, and the concrete
update of `bodyC2` rounds the body-charge formula. -/
theorem c2_final_amount_witness :
    (preSave (buildInvoice reqOne)).finalAmount =
      (preSave (buildInvoice reqOne)).subtotal +
      (preSave (buildInvoice reqOne)).totalTaxAmount -
      (preSave (buildInvoice reqOne)).discountAmount +
      (preSave (buildInvoice reqOne)).transportCharges +
      (preSave (buildInvoice reqOne)).otherCharges +
      (preSave (buildInvoice reqOne)).roundingAdjustment ∧
    invC2res.finalAmount = jround2 (invC2res.subtotal + invC2res.totalTaxAmount -
      (bodyC2.discountAmount.getD 0) + (bodyC2.transportCharges.getD 0) +
      (bodyC2.otherCharges.getD 0)) := by
  have h := c2_final_amount reqOne invC2 bodyC2 (preSave (buildInvoice reqOne)) invC2res
    ((bodyC2.lineItems).getD []) rfl rfl rfl
  exact ⟨h.1, h.2.2⟩

/-- A stored invoice of final amount 100 on which 50 has already been paid,
and an update body that resends its single line item at the default 18
percent rate. -/
def invC3 : Invoice :=
  { lineItems := [lineC2]
    subtotal := 100
    finalAmount := 100
    paidAmount := 50
    balanceAmount := 50 }

def bodyC3 : UpdateBody :=
  { lineItems := some [{ quantity := .num 1, unitPrice := .num 100, taxRate := .num 18 }] }

def invC3res : Invoice := getOk (updateInvoice invC3 bodyC3)

/-- C3: evaluation at the failing input. Updating the line items of an
invoice with `paidAmount = 50` persists `finalAmount = 118` and
`balanceAmount = 118`: the update handler sets the balance to the rounded
final amount and never subtracts the recorded `paidAmount`, so the persisted
balance differs from `finalAmount - paidAmount = 68`. The model's own
pre-save hook maintains `balanceAmount = finalAmount - paidAmount` on every
`save()`, which the `findOneAndUpdate` path bypasses. -/
theorem c3_update_drops_paid_amount :
    updateInvoice invC3 bodyC3 = .ok invC3res ∧
    invC3res.paidAmount = 50 ∧
    invC3res.finalAmount = 118 ∧
    invC3res.balanceAmount = 118 ∧
    invC3res.finalAmount - invC3res.paidAmount = 68 ∧
    invC3res.balanceAmount ≠ invC3res.finalAmount - invC3res.paidAmount := by
  have h1 : invC3res.paidAmount = 50 := by
    norm_num [invC3res, getOk, updateInvoice, recomputeUpdate, invC3, bodyC3]
  have h2 : invC3res.finalAmount = 118 := by
    norm_num [invC3res, getOk, updateInvoice, recomputeUpdate, invC3, bodyC3,
      updLineItem, numOr, jsNumber, jsOr, JVal.truthy, jround2_def, Int.floor_eq_iff]
  have h3 : invC3res.balanceAmount = 118 := by
    norm_num [invC3res, getOk, updateInvoice, recomputeUpdate, invC3, bodyC3,
      updLineItem, numOr, jsNumber, jsOr, JVal.truthy, jround2_def, Int.floor_eq_iff]
  refine ⟨rfl, h1, h2, h3, ?_, ?_⟩
  · rw [h1, h2]
    norm_num
  · rw [h1, h2, h3]
    norm_num

theorem genInvoiceNumber_ok_fresh {store cands : List String} {n : String}
    (h : genInvoiceNumber store cands = .ok n) : n ∉ store := by
  induction cands with
  | nil => cases h
  | cons c rest ih =>
    unfold genInvoiceNumber at h
    by_cases hc : c ∈ store
    · rw [if_pos hc] at h
      exact ih h
    · rw [if_neg hc] at h
      cases h
      exact hc

theorem genInvoiceNumber_ok_mem {store cands : List String} {n : String}
    (h : genInvoiceNumber store cands = .ok n) : n ∈ cands := by
  induction cands with
  | nil => cases h
  | cons c rest ih =>
    unfold genInvoiceNumber at h
    by_cases hc : c ∈ store
    · rw [if_pos hc] at h
      exact List.mem_cons_of_mem c (ih h)
    · rw [if_neg hc] at h
      cases h
      exact List.mem_cons_self _ _

theorem genInvoiceNumber_all_collide {store cands : List String}
    (h : ∀ c ∈ cands, c ∈ store) :
    genInvoiceNumber store cands = .error "Could not generate unique invoice number" := by
  induction cands with
  | nil => rfl
  | cons c rest ih =>
    unfold genInvoiceNumber
    rw [if_pos (h c (List.mem_cons_self c rest))]
    exact ih fun x hx => h x (List.mem_cons_of_mem c hx)

/-- C4: sequential model of invoice creation against the global invoice-number
store. On success the assigned number is one of the at most 100 candidates of
the form prefix-hyphen-suffix, it is absent from the store — so a
duplicate-free store stays duplicate-free when the invoice is persisted — and
when all 100 candidates collide the endpoint fails with the generation error
and persists nothing. -/
theorem c4_number_generation (store : List String) (pfx : String)
    (draws : Nat → Nat × Nat) (req : CreateReq) :
    (∀ n inv, createWithStore store pfx draws req = .ok (n, inv) →
      n ∉ store ∧
      (∃ i < maxAttempts, n = mkCandidate pfx (draws i).1 (draws i).2) ∧
      (store.Nodup → (n :: store).Nodup)) ∧
    (req.lineItems.isEmpty = false →
      (∀ c ∈ attemptCands pfx draws, c ∈ store) →
      createWithStore store pfx draws req =
        .error "Could not generate unique invoice number") := by
  constructor
  · intro n inv h
    unfold createWithStore at h
    split at h
    · cases h
    · revert h
      cases hg : genInvoiceNumber store (attemptCands pfx draws) with
      | error e => intro h; cases h
      | ok m =>
        intro h
        cases h
        have hfresh := genInvoiceNumber_ok_fresh hg
        have hmem := genInvoiceNumber_ok_mem hg
        refine ⟨hfresh, ?_, fun hnd => List.nodup_cons.mpr ⟨hfresh, hnd⟩⟩
        simp only [attemptCands, List.mem_map, List.mem_range] at hmem
        obtain ⟨i, hi, rfl⟩ := hmem
        exact ⟨i, hi, rfl⟩
  · intro hne hall
    unfold createWithStore
    rw [if_neg (by rw [hne]; exact Bool.false_ne_true)]
    rw [genInvoiceNumber_all_collide hall]

/-- Witness for C4: with a store holding one other number and a constant
draw stream, creation assigns the fresh candidate and uniqueness is
preserved; with a store already holding the only candidate the endpoint
fails with the generation error. -/
theorem c4_number_generation_witness :
    "SALE-2024-123456007" ∉ ["SALE-2024-999999999"] ∧
    (["SALE-2024-123456007", "SALE-2024-999999999"] : List String).Nodup ∧
    createWithStore ["SALE-2024-123456007"] "SALE-2024" (fun _ => (123456, 7)) reqOne =
      .error "Could not generate unique invoice number" := by
  have h1 := (c4_number_generation ["SALE-2024-999999999"] "SALE-2024"
    (fun _ => (123456, 7)) reqOne).1 "SALE-2024-123456007"
    (preSave (buildInvoice reqOne)) rfl
  have h2 := (c4_number_generation ["SALE-2024-123456007"] "SALE-2024"
    (fun _ => (123456, 7)) reqOne).2 rfl
  refine ⟨h1.1, h1.2.2 (by simp), h2 ?_⟩
  intro c hc
  have hc' : c = "SALE-2024-123456007" := by
    simp only [attemptCands, List.mem_map, List.mem_range] at hc
    obtain ⟨i, _, rfl⟩ := hc
    rfl
  rw [hc']
  simp

theorem safeNumber_num (x d : ℚ) : safeNumber (.num x) d = x := rfl

/-- A raw line item carrying plain numbers in its three main slots. -/
def rawQPR (q p r : ℚ) : RawLineItem :=
  { quantity := .num q
    unitPrice := .num p
    taxRate := .num r }

/-- The Scenario A invoice: the persisted result of creating `reqOne`. -/
def invScenA : Invoice := preSave (buildInvoice reqOne)

/-- C5 (amended): per processed line the persisted `lineTotal` is
`round2(q*p)`, but `taxAmount` is computed from the unrounded product —
`round2(q*p*r/100)`, not `round2(lineTotal*r/100)` — and `totalAmount` is
`round2` of the unrounded sum; Scenario A is as the spec states it. -/
theorem c5_line_arithmetic (q p r : ℚ) (_hq : 0 ≤ q) (_hp : 0 ≤ p)
    (_hr0 : 0 ≤ r) (_hr1 : r ≤ 100) :
    (processLineItem (.num r) (rawQPR q p r)).lineTotal = jround2 (q * p) ∧
    (processLineItem (.num r) (rawQPR q p r)).taxAmount = jround2 (q * p * r / 100) ∧
    (processLineItem (.num r) (rawQPR q p r)).totalAmount = jround2 (q * p + q * p * r / 100) ∧
    createInvoiceReq reqOne = .ok invScenA ∧
    invScenA.lineItems.map (fun it => (it.lineTotal, it.taxAmount, it.totalAmount)) =
      [(300, 54, 354)] ∧
    invScenA.subtotal = 300 ∧
    invScenA.totalTaxAmount = 54 ∧
    invScenA.finalAmount = 354 := by
  have hitem : processLineItem (.num r) (rawQPR q p r) =
      { quantity := q
        unitPrice := p
        taxRate := r
        lineTotal := jround2 (q * p)
        taxAmount := jround2 (q * p * r / 100)
        totalAmount := jround2 (q * p + q * p * r / 100) } := by
    by_cases hr : r = 0
    · subst hr
      rfl
    · have hc : (JVal.num r).truthy = true := by simp [JVal.truthy, hr]
      unfold processLineItem rawQPR jsOr
      rw [hc]
      rfl
  refine ⟨by rw [hitem], by rw [hitem], by rw [hitem], rfl, ?_, ?_, ?_, ?_⟩
  · norm_num [invScenA, preSave, buildInvoice, reqOne, processLineItem, safeNumber,
      jsOr, JVal.truthy, dflt, jround2_def, Int.floor_eq_iff]
  · norm_num [invScenA, preSave, buildInvoice, reqOne, processLineItem, safeNumber,
      jsOr, JVal.truthy, dflt, jround2_def, Int.floor_eq_iff]
  · norm_num [invScenA, preSave, buildInvoice, reqOne, processLineItem, safeNumber,
      jsOr, JVal.truthy, dflt, jround2_def, Int.floor_eq_iff]
  · norm_num [invScenA, preSave, buildInvoice, reqOne, processLineItem, safeNumber,
      jsOr, JVal.truthy, dflt, jround2_def, Int.floor_eq_iff]

/-- The line item of the C5 counterexample: quantity 1, unit price 1.006,
tax rate 50. -/
def itemC5 : RawLineItem := rawQPR 1 (1006/1000) 50

/-- C5 counterexample: for quantity 1, unit price 1.006, rate 50 the code
persists `taxAmount = 0.50` (rounded from the unrounded product 0.503),
while the claim's `round2(lineTotal*r/100)` over the persisted
`lineTotal = 1.01` gives 0.51. -/
theorem c5_counterexample :
    (processLineItem (.num 50) itemC5).lineTotal = 101/100 ∧
    (processLineItem (.num 50) itemC5).taxAmount = 1/2 ∧
    jround2 ((processLineItem (.num 50) itemC5).lineTotal * 50 / 100) = 51/100 ∧
    (processLineItem (.num 50) itemC5).taxAmount ≠
      jround2 ((processLineItem (.num 50) itemC5).lineTotal * 50 / 100) := by
  have h1 : (processLineItem (.num 50) itemC5).lineTotal = 101/100 := by
    norm_num [processLineItem, itemC5, rawQPR, safeNumber, jsOr, JVal.truthy,
      jround2_def, Int.floor_eq_iff]
  have h2 : (processLineItem (.num 50) itemC5).taxAmount = 1/2 := by
    norm_num [processLineItem, itemC5, rawQPR, safeNumber, jsOr, JVal.truthy,
      jround2_def, Int.floor_eq_iff]
  have h3 : jround2 ((processLineItem (.num 50) itemC5).lineTotal * 50 / 100) = 51/100 := by
    rw [h1]
    norm_num [jround2_def, Int.floor_eq_iff]
  refine ⟨h1, h2, h3, ?_⟩
  rw [h2, h3]
  norm_num

/-- Witness for C5 at quantity 3, unit price 100, rate 18. -/
theorem c5_line_arithmetic_witness :
    (processLineItem (.num 18) (rawQPR 3 100 18)).lineTotal = jround2 (3 * 100) ∧
    (processLineItem (.num 18) (rawQPR 3 100 18)).taxAmount = jround2 (3 * 100 * 18 / 100) ∧
    invScenA.finalAmount = 354 := by
  have h := c5_line_arithmetic 3 100 18 (by norm_num) (by norm_num) (by norm_num) (by norm_num)
  exact ⟨h.1, h.2.1, h.2.2.2.2.2.2.2⟩

/-- The malformed shapes named by the claim: missing, null, the empty string,
or non-numeric (a string that does not parse, or `NaN` itself). -/
def BadOpt (v : JVal) : Prop :=
  v = .undef ∨ v = .nullv ∨ v = .emptyStr ∨ v = .badStr ∨ v = .nanv

/-- C6: every malformed optional numeric input is coerced to its documented
default — line quantity to 1, line unit price to 0, the tax rate to the
invoice-level rate when the line slots are absent and to 18 when everything
is malformed, every charge to 0 — and the persisted invoice carries exactly
the coerced line items and charges. In this exact-rational model every
monetary field of the result is a rational by construction, so no NaN can be
persisted; the source's NaN guards are unreachable here. -/
theorem c6_safe_number_defaults (req : CreateReq) (item : RawLineItem) (tr : JVal)
    (inv : Invoice) (hok : createInvoiceReq req = .ok inv) :
    (BadOpt item.quantity → (processLineItem tr item).quantity = 1) ∧
    (BadOpt item.unitPrice → (processLineItem tr item).unitPrice = 0) ∧
    (BadOpt item.taxRate → BadOpt item.gstRate → BadOpt req.taxRate →
      (processLineItem (dflt req.taxRate 18) item).taxRate = 18) ∧
    (∀ t : ℚ, item.taxRate = .undef → item.gstRate = .undef → req.taxRate = .num t →
      (processLineItem (dflt req.taxRate 18) item).taxRate = t) ∧
    (BadOpt req.discountAmount → inv.discountAmount = 0) ∧
    (BadOpt req.transportCharges → inv.transportCharges = 0) ∧
    (BadOpt req.otherCharges → inv.otherCharges = 0) ∧
    (BadOpt req.roundingAdjustment → inv.roundingAdjustment = 0) ∧
    inv.lineItems = req.lineItems.map (processLineItem (dflt req.taxRate 18)) := by
  have hcre := createInvoiceReq_ok hok
  subst hcre
  refine ⟨fun h => ?_, fun h => ?_, fun h1 h2 h3 => ?_, fun t h1 h2 h3 => ?_,
    fun h => ?_, fun h => ?_, fun h => ?_, fun h => ?_, rfl⟩
  · rcases h with h | h | h | h | h <;> simp [processLineItem, safeNumber, h]
  · rcases h with h | h | h | h | h <;> simp [processLineItem, safeNumber, h]
  · rcases h1 with h1 | h1 | h1 | h1 | h1 <;> rcases h2 with h2 | h2 | h2 | h2 | h2 <;>
      rcases h3 with h3 | h3 | h3 | h3 | h3 <;>
      simp [processLineItem, safeNumber, jsOr, JVal.truthy, dflt, h1, h2, h3]
  · simp [processLineItem, safeNumber, jsOr, JVal.truthy, dflt, h1, h2, h3]
  · rcases h with h | h | h | h | h <;> simp [preSave, buildInvoice, safeNumber, dflt, h]
  · rcases h with h | h | h | h | h <;> simp [preSave, buildInvoice, safeNumber, dflt, h]
  · rcases h with h | h | h | h | h <;> simp [preSave, buildInvoice, safeNumber, dflt, h]
  · rcases h with h | h | h | h | h <;> simp [preSave, buildInvoice, safeNumber, dflt, h]

/-- A create request whose every optional numeric slot is malformed. -/
def itemC6 : RawLineItem :=
  { quantity := .emptyStr
    unitPrice := .badStr
    taxRate := .nullv
    gstRate := .undef }

def reqC6 : CreateReq :=
  { lineItems := [itemC6]
    discountAmount := .badStr
    transportCharges := .nullv
    otherCharges := .emptyStr
    roundingAdjustment := .nanv
    taxRate := .undef }

/-- Witness for C6 at a fully malformed request. -/
theorem c6_safe_number_defaults_witness :
    (processLineItem .undef itemC6).quantity = 1 ∧
    (processLineItem .undef itemC6).unitPrice = 0 ∧
    (processLineItem (dflt reqC6.taxRate 18) itemC6).taxRate = 18 ∧
    (preSave (buildInvoice reqC6)).discountAmount = 0 ∧
    (preSave (buildInvoice reqC6)).transportCharges = 0 ∧
    (preSave (buildInvoice reqC6)).otherCharges = 0 ∧
    (preSave (buildInvoice reqC6)).roundingAdjustment = 0 := by
  have h := c6_safe_number_defaults reqC6 itemC6 .undef (preSave (buildInvoice reqC6)) rfl
  exact ⟨h.1 (by simp [itemC6, BadOpt]), h.2.1 (by simp [itemC6, BadOpt]),
    h.2.2.1 (by simp [itemC6, BadOpt]) (by simp [itemC6, BadOpt]) (by simp [reqC6, BadOpt]),
    h.2.2.2.2.1 (by simp [reqC6, BadOpt]),
    h.2.2.2.2.2.1 (by simp [reqC6, BadOpt]),
    h.2.2.2.2.2.2.1 (by simp [reqC6, BadOpt]),
    h.2.2.2.2.2.2.2.1 (by simp [reqC6, BadOpt])⟩

/-- A create request producing one cent of total tax under the split regime:
one line of unit price 0.10 at rate 10 percent. -/
def reqC7 : CreateReq :=
  { lineItems := [rawQPR 1 (1/10) 10]
    taxType := .CGST_SGST }

def invC7 : Invoice := preSave (buildInvoice reqC7)

/-- C7 counterexample: with total tax 0.01 under CGST_SGST the code persists
`cgst = sgst = 0.01` (each `round2(totalTax/2)`), not the exact half 0.005
the claim states — the halves are rounded, so `cgst ≠ totalTaxAmount / 2`
and the two halves sum to 0.02, not to the total. -/
theorem c7_counterexample :
    createInvoiceReq reqC7 = .ok invC7 ∧
    invC7.taxType = .CGST_SGST ∧
    invC7.totalTaxAmount = 1/100 ∧
    invC7.cgst = 1/100 ∧
    invC7.sgst = 1/100 ∧
    invC7.igst = 0 ∧
    invC7.cgst ≠ invC7.totalTaxAmount / 2 := by
  have h1 : invC7.totalTaxAmount = 1/100 := by
    norm_num [invC7, preSave, buildInvoice, reqC7, rawQPR, processLineItem, safeNumber,
      jsOr, JVal.truthy, dflt, jround2_def, Int.floor_eq_iff]
  have h2 : invC7.cgst = 1/100 := by
    norm_num [invC7, preSave, buildInvoice, reqC7, rawQPR, processLineItem, safeNumber,
      jsOr, JVal.truthy, dflt, jround2_def, Int.floor_eq_iff]
  have h3 : invC7.sgst = 1/100 := by
    norm_num [invC7, preSave, buildInvoice, reqC7, rawQPR, processLineItem, safeNumber,
      jsOr, JVal.truthy, dflt, jround2_def, Int.floor_eq_iff]
  have h4 : invC7.igst = 0 := by
    norm_num [invC7, preSave, buildInvoice, reqC7, rawQPR, processLineItem, safeNumber,
      jsOr, JVal.truthy, dflt, jround2_def, Int.floor_eq_iff]
  refine ⟨rfl, rfl, h1, h2, h3, h4, ?_⟩
  rw [h1, h2]
  norm_num

/-- C7 (amended): exactly one tax regime is populated on every computed
invoice — creation and the update recomputation branch — with the split
halves rounded: under CGST_SGST, `cgst = sgst = round2(totalTaxAmount/2)`
and `igst = 0`; otherwise `igst = totalTaxAmount` and `cgst = sgst = 0`,
never a mixture. -/
theorem c7_tax_split (req : CreateReq) (stored : Invoice) (b : UpdateBody)
    (raw : List RawLineItem) (inv inv' : Invoice)
    (hc : createInvoiceReq req = .ok inv)
    (hb : b.lineItems = some raw)
    (hu : updateInvoice stored b = .ok inv') :
    (inv.taxType = .CGST_SGST →
      inv.cgst = jround2 (inv.totalTaxAmount / 2) ∧
      inv.sgst = jround2 (inv.totalTaxAmount / 2) ∧
      inv.igst = 0) ∧
    (inv.taxType = .IGST →
      inv.igst = inv.totalTaxAmount ∧ inv.cgst = 0 ∧ inv.sgst = 0) ∧
    (inv'.taxType = .CGST_SGST →
      inv'.cgst = jround2 (inv'.totalTaxAmount / 2) ∧
      inv'.sgst = jround2 (inv'.totalTaxAmount / 2) ∧
      inv'.igst = 0) ∧
    (inv'.taxType = .IGST →
      inv'.igst = inv'.totalTaxAmount ∧ inv'.cgst = 0 ∧ inv'.sgst = 0) := by
  have hcre := createInvoiceReq_ok hc
  subst hcre
  have hupd := updateInvoice_ok_recompute hb hu
  subst hupd
  have hTe : jround2 ((List.map ((fun it => it.taxAmount) ∘
        processLineItem (dflt req.taxRate 18)) req.lineItems).sum) =
      (List.map ((fun it => it.taxAmount) ∘
        processLineItem (dflt req.taxRate 18)) req.lineItems).sum :=
    jround2_eq_self (cents_sum_map _ _ (fun it _ => cents_jround2 _))
  have hTu : jround2 ((List.map ((fun x => x.taxAmount) ∘
        updLineItem b.taxRate) raw).sum) =
      (List.map ((fun x => x.taxAmount) ∘ updLineItem b.taxRate) raw).sum :=
    jround2_eq_self (cents_sum_map _ _ (fun it _ => cents_jround2 _))
  have htt : (preSave (buildInvoice req)).taxType = req.taxType := rfl
  refine ⟨fun h => ?_, fun h => ?_, fun h => ?_, fun h => ?_⟩
  · rw [htt] at h
    simp only [preSave, buildInvoice, safeNumber_num, h, if_true, if_false]
    simp [hTe]
  · rw [htt] at h
    simp only [preSave, buildInvoice, safeNumber_num, h]
    simp [hTe]
  · have h' : b.taxType.getD .IGST = .CGST_SGST := by
      have hrt : (recomputeUpdate stored b raw).taxType = b.taxType.getD .IGST := rfl
      rw [hrt] at h
      exact h
    simp only [recomputeUpdate, h', if_true]
    simp [hTu]
  · have h' : b.taxType.getD .IGST = .IGST := by
      have hrt : (recomputeUpdate stored b raw).taxType = b.taxType.getD .IGST := rfl
      rw [hrt] at h
      exact h
    simp only [recomputeUpdate, h']
    simp [hTu]

/-- Witness for C7 at concrete inputs: the Scenario A creation (IGST) and
the concrete recompute update of `bodyC3` on `invC3` (defaulting to IGST). -/
theorem c7_tax_split_witness :
    invScenA.igst = invScenA.totalTaxAmount ∧
    invScenA.cgst = 0 ∧ invScenA.sgst = 0 ∧
    invC3res.igst = invC3res.totalTaxAmount ∧
    invC3res.cgst = 0 ∧ invC3res.sgst = 0 := by
  have h := c7_tax_split reqOne invC3 bodyC3 (bodyC3.lineItems.getD []) invScenA invC3res
    rfl rfl rfl
  have h1 := h.2.1 rfl
  have h2 := h.2.2.2 rfl
  exact ⟨h1.1, h1.2.1, h1.2.2, h2.1, h2.2.1, h2.2.2⟩

theorem igst_ne_split : (TaxType.IGST = TaxType.CGST_SGST) = False :=
  eq_false (by decide)

/-- A stored invoice carrying an explicitly supplied non-zero breakdown. -/
def invC8 : Invoice :=
  { lineItems := [lineC2]
    subtotal := 100
    totalTaxAmount := 18
    finalAmount := 118
    balanceAmount := 118
    igst := 999 }

def invC8res : Invoice := getOk (updateInvoice invC8 bodyC3)

/-- C8 counterexample: an update that resends the line items overwrites the
stored non-zero `igst = 999` with the recomputed 18 — the update path
recomputes the breakdown unconditionally, contrary to the claim that a
non-zero breakdown is never overwritten. -/
theorem c8_counterexample :
    invC8.igst = 999 ∧
    updateInvoice invC8 bodyC3 = .ok invC8res ∧
    invC8res.igst = 18 ∧
    invC8res.cgst = 0 ∧
    invC8res.sgst = 0 := by
  have h1 : invC8res.igst = 18 := by
    norm_num [invC8res, getOk, updateInvoice, recomputeUpdate, invC8, bodyC3,
      updLineItem, numOr, jsNumber, jsOr, JVal.truthy, jround2_def, Int.floor_eq_iff,
      igst_ne_split]
  have h2 : invC8res.cgst = 0 := by
    norm_num [invC8res, getOk, updateInvoice, recomputeUpdate, invC8, bodyC3,
      igst_ne_split]
  have h3 : invC8res.sgst = 0 := by
    norm_num [invC8res, getOk, updateInvoice, recomputeUpdate, invC8, bodyC3,
      igst_ne_split]
  exact ⟨rfl, rfl, h1, h2, h3⟩

/-- C8 (amended): the save-path hook is idempotent as the claim states — it
never overwrites a breakdown in which some of igst, cgst, sgst is non-zero,
recomputing only when all three are zero — but the update handler's
recomputation branch overwrites the breakdown unconditionally: its result
does not depend on the stored invoice's breakdown at all. -/
theorem c8_breakdown_idempotent (inv stored : Invoice) (b : UpdateBody)
    (raw : List RawLineItem) (inv' : Invoice)
    (hnz : ¬ (inv.igst = 0 ∧ inv.cgst = 0 ∧ inv.sgst = 0))
    (hb : b.lineItems = some raw)
    (hu : updateInvoice stored b = .ok inv') :
    ((preSave inv).igst = inv.igst ∧ (preSave inv).cgst = inv.cgst ∧
      (preSave inv).sgst = inv.sgst) ∧
    (∀ stored2 inv2, updateInvoice stored2 b = .ok inv2 →
      inv2.igst = inv'.igst ∧ inv2.cgst = inv'.cgst ∧ inv2.sgst = inv'.sgst) := by
  have hno : ¬ (0 < (inv.lineItems.map (·.taxAmount)).sum ∧
      inv.igst = 0 ∧ inv.cgst = 0 ∧ inv.sgst = 0) := by
    intro hcond
    exact hnz hcond.2
  constructor
  · simp only [preSave]
    rw [if_neg hno, if_neg hno, if_neg hno]
    exact ⟨rfl, rfl, rfl⟩
  · intro stored2 inv2 h2
    have e1 := updateInvoice_ok_recompute hb hu
    have e2 := updateInvoice_ok_recompute hb h2
    subst e1
    subst e2
    exact ⟨rfl, rfl, rfl⟩

/-- Witness for C8: the concrete stored invoice `invC8` with its non-zero
breakdown survives a plain `save()` untouched, while any two stores updated
with `bodyC3` get the same recomputed breakdown. -/
theorem c8_breakdown_idempotent_witness :
    (preSave invC8).igst = invC8.igst ∧
    invC8res.igst = invC8res.igst := by
  have h := c8_breakdown_idempotent invC8 invC8 bodyC3 (bodyC3.lineItems.getD [])
    invC8res (by norm_num [invC8]) rfl rfl
  exact ⟨h.1.1, (h.2 invC8 invC8res rfl).1⟩

/-- A create request whose single line item is entirely missing quantity. -/
def reqC9 : CreateReq :=
  { lineItems := [{ unitPrice := .num 100 }] }

def invC9 : Invoice := preSave (buildInvoice reqC9)

/-- C9 counterexample: a create whose line item has no `quantity` at all does
not fail — the endpoint succeeds, persisting the invoice with the quantity
coerced to 1 (unit price 100, default rate 18, final amount 118); no
validation failure naming the line index exists in the handler. -/
theorem c9_counterexample :
    createInvoiceReq reqC9 = .ok invC9 ∧
    invC9.lineItems.map (·.quantity) = [1] ∧
    invC9.lineItems.map (·.unitPrice) = [100] ∧
    invC9.finalAmount = 118 := by
  refine ⟨rfl, rfl, rfl, ?_⟩
  norm_num [invC9, preSave, buildInvoice, reqC9, processLineItem, safeNumber,
    jsOr, JVal.truthy, dflt, jround2_def, Int.floor_eq_iff]

/-- C9 (amended): creation applies no strict per-line validation: a line item
entirely missing `quantity` or `unitPrice` is coerced through the safe-number
policy (quantity to 1, unit price to 0) and the invoice is created and
persisted; the only line-item validation on create is the rejection of a
missing or empty `lineItems` array. -/
theorem c9_missing_fields_coerced (req : CreateReq) (item : RawLineItem) (tr : JVal)
    (hne : req.lineItems.isEmpty = false) :
    (item.quantity = .undef → (processLineItem tr item).quantity = 1) ∧
    (item.unitPrice = .undef → (processLineItem tr item).unitPrice = 0) ∧
    createInvoiceReq req = .ok (preSave (buildInvoice req)) := by
  refine ⟨fun h => by simp [processLineItem, safeNumber, h],
    fun h => by simp [processLineItem, safeNumber, h], ?_⟩
  unfold createInvoiceReq
  rw [if_neg (by rw [hne]; exact Bool.false_ne_true)]

/-- Witness for C9 at the concrete request `reqC9`. -/
theorem c9_missing_fields_coerced_witness :
    (processLineItem .undef { unitPrice := .num 100 }).quantity = 1 ∧
    createInvoiceReq reqC9 = .ok (preSave (buildInvoice reqC9)) := by
  have h := c9_missing_fields_coerced reqC9 { unitPrice := .num 100 } .undef rfl
  exact ⟨h.1 rfl, h.2.2⟩

/-- C10: an update body that defines `transportCharges` or `otherCharges` but
carries no `lineItems` array always fails — the recomputation branch is
entered and dereferences the absent array — and, the handler erroring before
`findOneAndUpdate`, the stored invoice is unchanged: a charges-only update
can never succeed through the recomputation path. -/
theorem c10_charges_only_update_fails (stored : Invoice) (b : UpdateBody)
    (hno : b.lineItems = none)
    (hch : b.transportCharges.isSome ∨ b.otherCharges.isSome) :
    updateInvoice stored b =
      .error "Failed to update invoice: Cannot read properties of undefined" := by
  unfold updateInvoice
  rw [hno]
  rw [if_pos (Or.inr hch)]

/-- Witness for C10: a transport-charges-only update fails with the 500
error. -/
theorem c10_charges_only_update_fails_witness :
    updateInvoice {} { transportCharges := some 50 } =
      .error "Failed to update invoice: Cannot read properties of undefined" :=
  c10_charges_only_update_fails {} { transportCharges := some 50 } rfl (Or.inl rfl)

end Billing
